import Mathlib

/-!
Shallow embedding of the EchoDeck video-export pipeline
(`src/server/services/videoAssembly.ts`, `src/server/services/tts.ts`,
`src/server/routes.ts`, `src/server/storage.ts`) together with theorems
settling the specification claims about it.

Conventions: JavaScript numbers that carry media durations or progress
percentages are modelled as rationals (`ℚ`) or integers (`ℤ`); JavaScript
strings are `String`, except narration text, where per-character operations
(trim, truncate) matter and `List Char` is used; `undefined`-able values are
`Option`; code that can `throw` returns `Except String`.
-/

namespace EchoDeck

/-! ### Transition settings (`videoAssembly.ts`) -/

/-- The `TransitionSettings['type']` union from `videoAssembly.ts`. -/
inductive TransitionType
  | none
  | crossfade
  | fadeToBlack
  | slide
  | wipe
deriving DecidableEq

/-- `TransitionSettings`: transition type plus duration in seconds. -/
structure TransitionSettings where
  type : TransitionType
  duration : ℚ
deriving DecidableEq

/-- The `supportedTransitions` list inside `validateTransitionSettings`. -/
def supportedTransitions : List TransitionType :=
  [TransitionType.none, TransitionType.crossfade, TransitionType.fadeToBlack]

/-- `VideoAssemblyService.validateTransitionSettings`: coerce unsupported
transition types to `crossfade`, pass supported ones through. -/
def validateTransitionSettings (transitionSettings : TransitionSettings) : TransitionSettings :=
  if transitionSettings.type ∈ supportedTransitions then
    transitionSettings
  else
    { transitionSettings with type := TransitionType.crossfade }

/-- The total-duration computation of `assemblePresentationVideo`
(`videoAssembly.ts` lines 194–229): sum the per-segment (audio) durations,
then adjust for transitions: for more than one slide and a validated type
other than `none`, crossfade subtracts `(n-1) * duration` while any other
type adds it. -/
def assembleTotalDuration (durations : List ℚ) (transitionSettings : TransitionSettings) : ℚ :=
  let validatedTransitions := validateTransitionSettings transitionSettings
  let total := durations.sum
  if 1 < durations.length ∧ validatedTransitions.type ≠ TransitionType.none then
    if validatedTransitions.type = TransitionType.crossfade then
      total - (durations.length - 1 : ℕ) * validatedTransitions.duration
    else
      total + (durations.length - 1 : ℕ) * validatedTransitions.duration
  else
    total

lemma validateTransitionSettings_duration (t : TransitionSettings) :
    (validateTransitionSettings t).duration = t.duration := by
  unfold validateTransitionSettings
  split <;> rfl

/-- **C8**: `validateTransitionSettings` coerces any type outside
{none, crossfade, fade-to-black} to `crossfade` while keeping the duration,
and passes members of that set through unchanged; being a total function it
never rejects or throws. -/
theorem validateTransitionSettings_correct (t : TransitionSettings) :
    (t.type ∉ supportedTransitions →
      validateTransitionSettings t = { t with type := TransitionType.crossfade }) ∧
    (t.type ∈ supportedTransitions → validateTransitionSettings t = t) ∧
    (validateTransitionSettings t).duration = t.duration := by
  refine ⟨?_, ?_, validateTransitionSettings_duration t⟩ <;>
    intro h <;> simp [validateTransitionSettings, h]

/-- Witness for C8 at concrete inputs: `wipe` is coerced to `crossfade`
with duration kept, `none` passes through. -/
theorem validateTransitionSettings_correct_witness :
    validateTransitionSettings ⟨TransitionType.wipe, 2⟩ = ⟨TransitionType.crossfade, 2⟩ ∧
    validateTransitionSettings ⟨TransitionType.none, 1⟩ = ⟨TransitionType.none, 1⟩ :=
  ⟨(validateTransitionSettings_correct ⟨TransitionType.wipe, 2⟩).1 (by decide),
   (validateTransitionSettings_correct ⟨TransitionType.none, 1⟩).2.1 (by decide)⟩

/-- **C1**: total duration returned by `assemblePresentationVideo` over the
segment durations: with at least two segments and validated type
`crossfade` it is the sum minus `(n-1) * duration`; with a validated type
that is neither `none` nor `crossfade` it is the sum plus `(n-1) * duration`;
for a single segment or type `none` it is the plain sum. -/
theorem assembleTotalDuration_correct (durations : List ℚ) (t : TransitionSettings) :
    (2 ≤ durations.length → (validateTransitionSettings t).type = TransitionType.crossfade →
      assembleTotalDuration durations t =
        durations.sum - (durations.length - 1 : ℕ) * t.duration) ∧
    (2 ≤ durations.length → (validateTransitionSettings t).type ≠ TransitionType.none →
      (validateTransitionSettings t).type ≠ TransitionType.crossfade →
      assembleTotalDuration durations t =
        durations.sum + (durations.length - 1 : ℕ) * t.duration) ∧
    ((durations.length = 1 ∨ t.type = TransitionType.none) →
      assembleTotalDuration durations t = durations.sum) := by
  refine ⟨?_, ?_, ?_⟩
  · intro hlen htype
    have hd := validateTransitionSettings_duration t
    unfold assembleTotalDuration
    rw [if_pos ⟨by omega, by rw [htype]; decide⟩, if_pos htype, hd]
  · intro hlen hnone hcross
    have hd := validateTransitionSettings_duration t
    unfold assembleTotalDuration
    rw [if_pos ⟨by omega, hnone⟩, if_neg hcross, hd]
  · rintro (hlen | hnone)
    · unfold assembleTotalDuration
      rw [if_neg]
      rintro ⟨h1, -⟩
      omega
    · have : validateTransitionSettings t = t := by
        simp [validateTransitionSettings, hnone, supportedTransitions]
      unfold assembleTotalDuration
      rw [if_neg]
      rintro ⟨-, h2⟩
      exact h2 (by rw [this, hnone])

/-- Witness for C1: three segments of durations 8, 6, 7 with a crossfade of
1s total 19s; the same segments with a fade-to-black total 23s; a single
8s segment or type `none` gives the plain sum. -/
theorem assembleTotalDuration_correct_witness :
    assembleTotalDuration [8, 6, 7] ⟨TransitionType.crossfade, 1⟩ = 19 ∧
    assembleTotalDuration [8, 6, 7] ⟨TransitionType.fadeToBlack, 1⟩ = 23 ∧
    assembleTotalDuration [8] ⟨TransitionType.crossfade, 1⟩ = 8 ∧
    assembleTotalDuration [8, 6, 7] ⟨TransitionType.none, 1⟩ = 21 := by
  refine ⟨?_, ?_, ?_, ?_⟩
  · rw [(assembleTotalDuration_correct [8, 6, 7] ⟨TransitionType.crossfade, 1⟩).1
      (by decide) (by decide)]
    norm_num
  · rw [(assembleTotalDuration_correct [8, 6, 7] ⟨TransitionType.fadeToBlack, 1⟩).2.1
      (by decide) (by decide) (by decide)]
    norm_num
  · rw [(assembleTotalDuration_correct [8] ⟨TransitionType.crossfade, 1⟩).2.2
      (Or.inl (by decide))]
    norm_num
  · rw [(assembleTotalDuration_correct [8, 6, 7] ⟨TransitionType.none, 1⟩).2.2
      (Or.inr rfl)]
    norm_num

/-! ### Quality settings and codec/container validation (`videoAssembly.ts`) -/

/-- The optional `resolution` sub-object of `VideoQualitySettings`. -/
structure Resolution where
  width : ℕ
  height : ℕ
deriving DecidableEq

/-- `VideoQualitySettings`: every field optional, as in the TS interface. -/
structure VideoQualitySettings where
  videoCodec : Option String := Option.none
  audioCodec : Option String := Option.none
  videoBitrate : Option String := Option.none
  audioBitrate : Option String := Option.none
  crf : Option ℕ := Option.none
  preset : Option String := Option.none
  format : Option String := Option.none
  resolution : Option Resolution := Option.none
deriving DecidableEq

/-- The `CODEC_CONTAINER_COMPATIBILITY` object literal: container format to
its accepted video codecs, `Option.none` for keys absent from the literal. -/
def CODEC_CONTAINER_COMPATIBILITY (format : String) : Option (List String) :=
  if format = "mp4" then some ["libx264", "libx265", "h264_nvenc"]
  else if format = "avi" then some ["libxvid", "mjpeg"]
  else if format = "mov" then some ["libx264", "libx265", "h264_nvenc", "prores"]
  else if format = "mkv" then some ["libx264", "libx265", "h264_nvenc"]
  else Option.none

/-- The `SAFE_CODEC_FALLBACKS[format] || SAFE_CODEC_FALLBACKS.default`
lookup: the literal has keys `avi` and `default` only, so every format other
than `avi` (the literal key `default` included) yields the default pair.
Returned as (videoCodec, format). -/
def SAFE_CODEC_FALLBACKS (format : String) : String × String :=
  if format = "avi" then ("libxvid", "avi") else ("libx264", "mp4")

/-- `VideoAssemblyService.validateCodecContainerCompatibility`: default the
format to `mp4` and the codec to `libx264`, and when the codec is not in the
container's accepted list (or the container is unknown) substitute the safe
fallback pair, overwriting only `videoCodec` and `format`. -/
def validateCodecContainerCompatibility (settings : VideoQualitySettings) : VideoQualitySettings :=
  let format := settings.format.getD "mp4"
  let codec := settings.videoCodec.getD "libx264"
  match CODEC_CONTAINER_COMPATIBILITY format with
  | Option.none =>
      let fallback := SAFE_CODEC_FALLBACKS format
      { settings with videoCodec := some fallback.1, format := some fallback.2 }
  | some compatibleCodecs =>
      if codec ∈ compatibleCodecs then
        settings
      else
        let fallback := SAFE_CODEC_FALLBACKS format
        { settings with videoCodec := some fallback.1, format := some fallback.2 }

lemma validate_fallback_fixed (s : VideoQualitySettings) (f : String) :
    validateCodecContainerCompatibility
      { s with videoCodec := some (SAFE_CODEC_FALLBACKS f).1,
               format := some (SAFE_CODEC_FALLBACKS f).2 } =
    { s with videoCodec := some (SAFE_CODEC_FALLBACKS f).1,
             format := some (SAFE_CODEC_FALLBACKS f).2 } := by
  by_cases hf : f = "avi" <;>
    simp [SAFE_CODEC_FALLBACKS, hf, validateCodecContainerCompatibility,
      CODEC_CONTAINER_COMPATIBILITY]

lemma validate_of_unknown (s : VideoQualitySettings)
    (h : CODEC_CONTAINER_COMPATIBILITY (s.format.getD "mp4") = Option.none) :
    validateCodecContainerCompatibility s =
      { s with videoCodec := some (SAFE_CODEC_FALLBACKS (s.format.getD "mp4")).1,
               format := some (SAFE_CODEC_FALLBACKS (s.format.getD "mp4")).2 } := by
  simp [validateCodecContainerCompatibility, h]

lemma validate_of_incompat (s : VideoQualitySettings) (cs : List String)
    (h : CODEC_CONTAINER_COMPATIBILITY (s.format.getD "mp4") = some cs)
    (hmem : s.videoCodec.getD "libx264" ∉ cs) :
    validateCodecContainerCompatibility s =
      { s with videoCodec := some (SAFE_CODEC_FALLBACKS (s.format.getD "mp4")).1,
               format := some (SAFE_CODEC_FALLBACKS (s.format.getD "mp4")).2 } := by
  simp [validateCodecContainerCompatibility, h, hmem]

lemma validate_of_compat (s : VideoQualitySettings) (cs : List String)
    (h : CODEC_CONTAINER_COMPATIBILITY (s.format.getD "mp4") = some cs)
    (hmem : s.videoCodec.getD "libx264" ∈ cs) :
    validateCodecContainerCompatibility s = s := by
  simp [validateCodecContainerCompatibility, h, hmem]

/-- **C6**: the codec/container validator is idempotent — one application is
a fixed point — and, as a total function, never throws. -/
theorem validateCodecContainerCompatibility_idempotent (s : VideoQualitySettings) :
    validateCodecContainerCompatibility (validateCodecContainerCompatibility s) =
      validateCodecContainerCompatibility s := by
  cases h : CODEC_CONTAINER_COMPATIBILITY (s.format.getD "mp4") with
  | none =>
      rw [validate_of_unknown s h]
      exact validate_fallback_fixed s (s.format.getD "mp4")
  | some compatibleCodecs =>
      by_cases hc : s.videoCodec.getD "libx264" ∈ compatibleCodecs
      · rw [validate_of_compat s compatibleCodecs h hc, validate_of_compat s compatibleCodecs h hc]
      · rw [validate_of_incompat s compatibleCodecs h hc]
        exact validate_fallback_fixed s (s.format.getD "mp4")

/-- **C10**: the validator modifies at most `videoCodec` and `format`; the
other six fields of the profile are returned unchanged. -/
theorem validateCodecContainerCompatibility_frame (s : VideoQualitySettings) :
    (validateCodecContainerCompatibility s).audioCodec = s.audioCodec ∧
    (validateCodecContainerCompatibility s).audioBitrate = s.audioBitrate ∧
    (validateCodecContainerCompatibility s).crf = s.crf ∧
    (validateCodecContainerCompatibility s).videoBitrate = s.videoBitrate ∧
    (validateCodecContainerCompatibility s).preset = s.preset ∧
    (validateCodecContainerCompatibility s).resolution = s.resolution := by
  cases h : CODEC_CONTAINER_COMPATIBILITY (s.format.getD "mp4") with
  | none =>
      rw [validate_of_unknown s h]
      exact ⟨rfl, rfl, rfl, rfl, rfl, rfl⟩
  | some compatibleCodecs =>
      by_cases hc : s.videoCodec.getD "libx264" ∈ compatibleCodecs
      · rw [validate_of_compat s compatibleCodecs h hc]
        exact ⟨rfl, rfl, rfl, rfl, rfl, rfl⟩
      · rw [validate_of_incompat s compatibleCodecs h hc]
        exact ⟨rfl, rfl, rfl, rfl, rfl, rfl⟩

/-- The claim C7 is refuted at a `mov` profile: `libxvid` is not accepted
for `mov`, yet the substituted fallback pair replaces the container with
`mp4` rather than keeping `mov`. -/
theorem validateCodecContainerCompatibility_mov_counterexample :
    CODEC_CONTAINER_COMPATIBILITY "mov" =
      some ["libx264", "libx265", "h264_nvenc", "prores"] ∧
    "libxvid" ∉ ["libx264", "libx265", "h264_nvenc", "prores"] ∧
    (validateCodecContainerCompatibility
      { videoCodec := some "libxvid", format := some "mov" }).format = some "mp4" ∧
    some "mp4" ≠ some "mov" := by
  refine ⟨by decide, by decide, ?_, by decide⟩
  decide

/-- **C7 (amended)**: on an incompatible codec/container pair (or unknown
container) the validator substitutes the fallback pair designated for the
requested container in `SAFE_CODEC_FALLBACKS` — (`libxvid`, `avi`) when the
container is `avi`, the default (`libx264`, `mp4`) otherwise — and a
compatible pair passes through unchanged. -/
theorem validateCodecContainerCompatibility_fallback (s : VideoQualitySettings) :
    (∀ cs, CODEC_CONTAINER_COMPATIBILITY (s.format.getD "mp4") = some cs →
      s.videoCodec.getD "libx264" ∉ cs →
      validateCodecContainerCompatibility s =
        { s with videoCodec := some (SAFE_CODEC_FALLBACKS (s.format.getD "mp4")).1,
                 format := some (SAFE_CODEC_FALLBACKS (s.format.getD "mp4")).2 }) ∧
    (CODEC_CONTAINER_COMPATIBILITY (s.format.getD "mp4") = Option.none →
      validateCodecContainerCompatibility s =
        { s with videoCodec := some (SAFE_CODEC_FALLBACKS (s.format.getD "mp4")).1,
                 format := some (SAFE_CODEC_FALLBACKS (s.format.getD "mp4")).2 }) ∧
    (∀ cs, CODEC_CONTAINER_COMPATIBILITY (s.format.getD "mp4") = some cs →
      s.videoCodec.getD "libx264" ∈ cs →
      validateCodecContainerCompatibility s = s) :=
  ⟨fun cs hcs hmem => validate_of_incompat s cs hcs hmem,
   validate_of_unknown s,
   fun cs hcs hmem => validate_of_compat s cs hcs hmem⟩

/-- Witness for C7 (amended): an `avi` profile requesting the modern-only
codec `libx264` falls back to (`libxvid`, `avi`) — container kept — and a
compatible `mp4`/`libx264` profile passes through unchanged. -/
theorem validateCodecContainerCompatibility_fallback_witness :
    validateCodecContainerCompatibility { videoCodec := some "libx264", format := some "avi" } =
      { videoCodec := some "libxvid", format := some "avi" } ∧
    validateCodecContainerCompatibility { videoCodec := some "libx264", format := some "mp4" } =
      { videoCodec := some "libx264", format := some "mp4" } :=
  ⟨(validateCodecContainerCompatibility_fallback
      { videoCodec := some "libx264", format := some "avi" }).1
      ["libxvid", "mjpeg"] (by decide) (by decide),
   (validateCodecContainerCompatibility_fallback
      { videoCodec := some "libx264", format := some "mp4" }).2.2
      ["libx264", "libx265", "h264_nvenc"] (by decide) (by decide)⟩

/-! ### Export job record and failure path (`storage.ts`, `routes.ts`) -/

/-- The fields of the persisted export record touched by progress/status
updates (`storage.ts`, `MemStorage`). -/
structure ExportRecord where
  progress : ℤ
  phase : String
  error : Option String
  isReady : Bool
  fileUrl : Option String
deriving DecidableEq

/-- JavaScript `a || b` for an optional string `a` and string fallback `b`:
`undefined` and the empty string are falsy. -/
def jsStringOr (value : Option String) (fallback : String) : String :=
  match value with
  | some s => if s = "" then fallback else s
  | Option.none => fallback

/-- JavaScript `a || b` where both sides are optional strings. -/
def jsStringOrOpt (value fallback : Option String) : Option String :=
  match value with
  | some s => if s = "" then fallback else some s
  | Option.none => fallback

/-- JavaScript `a || null` for an optional string `a`. -/
def jsStringOrNull (value : Option String) : Option String :=
  match value with
  | some s => if s = "" then Option.none else some s
  | Option.none => Option.none

/-- `MemStorage.updateExportProgress`: clamp the progress into `[0, 100]`
and write it, update the phase when truthy; the `message` parameter is
accepted but unused by the implementation. -/
def updateExportProgress (r : ExportRecord) (progress : ℤ)
    (phase _message error : Option String) : ExportRecord :=
  { r with progress := max 0 (min 100 progress),
           phase := jsStringOr phase r.phase,
           error := jsStringOrOpt error r.error }

/-- `MemStorage.updateExportStatus`: set readiness, on success force
progress 100 and phase `complete`, on an error message set phase `error`
while keeping the stored progress. -/
def updateExportStatus (r : ExportRecord) (isReady : Bool)
    (fileUrl errorMessage : Option String) : ExportRecord :=
  { r with isReady := isReady,
           fileUrl := jsStringOrOpt fileUrl r.fileUrl,
           error := jsStringOrNull errorMessage,
           progress := if isReady then 100 else r.progress,
           phase := if isReady then "complete"
                    else match jsStringOrNull errorMessage with
                         | some _ => "error"
                         | Option.none => r.phase }

/-- The catch block of `processExportAsync` (`routes.ts` lines 840–844):
write progress 0 with phase `error`, then record the failure status with
message `Error: <msg>`. -/
def processExportFailure (r : ExportRecord) (msg : String) : ExportRecord :=
  updateExportStatus
    (updateExportProgress r 0 (some "error") (some ("Failed: " ++ msg)) Option.none)
    false Option.none (some ("Error: " ++ msg))

lemma errorPrefixed_ne_empty (msg : String) : "Error: " ++ msg ≠ "" := by
  intro h
  have hlen := congrArg String.length h
  rw [String.length_append] at hlen
  have h7 : String.length "Error: " = 7 := rfl
  have h0 : String.length "" = 0 := rfl
  omega

/-- The claim C2 is refuted at a job that failed while 70% through
assembly: the catch block writes progress 0, so the recorded progress is
not frozen at 70. -/
theorem processExportFailure_counterexample :
    (processExportFailure
      { progress := 70, phase := "assembly", error := Option.none,
        isReady := false, fileUrl := Option.none } "ffmpeg exited with code 1").progress = 0 ∧
    ({ progress := 70, phase := "assembly", error := Option.none,
       isReady := false, fileUrl := Option.none : ExportRecord }).progress = 70 ∧
    (0 : ℤ) ≠ 70 := by
  refine ⟨?_, rfl, by decide⟩
  rfl

/-- **C2 (amended)**: on an unrecovered exception the job record is marked
phase `error`, not ready, with the human-readable message `Error: <msg>` —
but its progress is reset to 0 by the catch block, not frozen at the last
value reached. -/
theorem processExportFailure_correct (r : ExportRecord) (msg : String) :
    (processExportFailure r msg).phase = "error" ∧
    (processExportFailure r msg).error = some ("Error: " ++ msg) ∧
    (processExportFailure r msg).isReady = false ∧
    (processExportFailure r msg).progress = 0 := by
  have hne : "Error: " ++ msg ≠ "" := errorPrefixed_ne_empty msg
  unfold processExportFailure updateExportStatus updateExportProgress
  simp [jsStringOrNull, jsStringOr, hne]

/-! ### Progress writes of `assemblePresentationVideo` (C3) -/

/-- The sequence of progress values passed to `updateJobProgress` during a
successful run of `assemblePresentationVideo` over `n` slides, as a
function of the per-slide encoder progress reports (`slideReports`, one
list of percentages per slide, each clamped by the code to at most 100)
and the concatenation progress reports (`concatReports`, unclamped).
Mirrors `videoAssembly.ts` lines 190–264: the initial 0, then per slide
`floor((i/n)*30)` followed by `floor((i/n)*30 + (p/n)*30)` per report,
then 30, then `30 + floor(p*0.7)` per concatenation report (only when
`n ≠ 1`; a single slide is re-encoded without progress callbacks), then
95 and 100. An empty slide list throws before any write. -/
def assemblyProgressWrites (n : ℕ) (slideReports : List (List ℚ))
    (concatReports : List ℚ) : List ℤ :=
  if n = 0 then []
  else
    [0] ++
    (List.range n).flatMap (fun i =>
      ⌊((i : ℚ) / n) * 30⌋ ::
        (slideReports.getD i []).map (fun p =>
          ⌊((i : ℚ) / n) * 30 + ((min p 100) / n) * 30⌋)) ++
    [30] ++
    (if n = 1 then [] else concatReports.map (fun p => 30 + ⌊p * (7 / 10)⌋)) ++
    [95, 100]

/-- The claim C3 fails on the code: for a 2-slide job whose first slide's
encoder reports 50%, the overall-progress formula
`floor((i/n)*30 + (p/n)*30)` (which its own comment says should lie in the
0–30% band) yields 750, and the next write drops back to 15 — the sequence
after the initial 0 is not monotonically non-decreasing. -/
theorem assemblyProgressWrites_not_monotone :
    assemblyProgressWrites 2 [[50], []] [] = [0, 0, 750, 15, 30, 95, 100] ∧
    ¬ List.Chain' (· ≤ ·) ((assemblyProgressWrites 2 [[50], []] []).drop 1) := by
  have h : assemblyProgressWrites 2 [[50], []] [] = [0, 0, 750, 15, 30, 95, 100] := by
    norm_num [assemblyProgressWrites, List.range_succ]
  refine ⟨h, ?_⟩
  rw [h]
  intro hc
  norm_num [List.chain'_cons] at hc

/-! ### Narration synthesis (`tts.ts`) -/

/-- The truncation applied in `generateAudioWithRetry` before calling the
speech API: text over 4000 characters is cut to its first 4000 characters
and an ellipsis `"..."` is appended. Narration text is modelled as a list
of characters. -/
def truncateForTTS (text : List Char) : List Char :=
  if 4000 < text.length then text.take 4000 ++ ['.', '.', '.'] else text

/-- The claim C9 is refuted by a 4001-character text: the submitted text is
the 4000-character prefix plus the 3-character ellipsis, 4003 characters —
more than 4000 (though still under the speech API's 4096 limit named in the
code comment). -/
theorem truncateForTTS_counterexample :
    (truncateForTTS (List.replicate 4001 'a')).length = 4003 ∧
    ¬ (truncateForTTS (List.replicate 4001 'a')).length ≤ 4000 := by
  have h : (truncateForTTS (List.replicate 4001 'a')).length = 4003 := by
    rw [truncateForTTS, if_pos (by rw [List.length_replicate]; norm_num)]
    rw [List.length_append, List.length_take, List.length_replicate]
    simp only [List.length_cons, List.length_nil]
    omega
  exact ⟨h, by rw [h]; norm_num⟩

/-- **C9 (amended)**: the narration text submitted to the speech API has
length at most 4003 characters — the first 4000 characters of the input
plus a 3-character ellipsis when truncation occurs. -/
theorem truncateForTTS_length_le (text : List Char) :
    (truncateForTTS text).length ≤ 4003 := by
  unfold truncateForTTS
  split
  · rw [List.length_append, List.length_take]
    have := min_le_left 4000 text.length
    simp only [List.length_cons, List.length_nil]
    omega
  · omega

/-- JavaScript `String.prototype.trim` on a character list: strip
whitespace from both ends. -/
def jsTrim (s : List Char) : List Char :=
  ((s.dropWhile Char.isWhitespace).reverse.dropWhile Char.isWhitespace).reverse

/-- A slide as consumed by the narration batch (`@shared/schema` `Slide`,
restricted to the fields `generatePresentationNarration` reads; the
optional types mirror the code's defensive `?.` accesses). -/
structure Slide where
  id : String
  title : List Char
  bulletPoints : Option (List (List Char))
  speakerNotes : Option (List Char)
deriving DecidableEq

/-- Result of synthesizing one slide's narration (`SlideNarrationResult`). -/
structure SlideNarrationResult where
  slideId : String
  audioPath : String
  duration : ℚ
deriving DecidableEq

/-- Result of one `generateSlideNarration` call (`TTSResult`). -/
structure TTSResult where
  audioPath : String
  duration : ℚ
deriving DecidableEq

/-- The narration text computed for a slide: trimmed speaker notes when
truthy, otherwise `title` + `". "` + bullet points joined with `". "`. -/
def narrationTextOf (slide : Slide) : List Char :=
  match slide.speakerNotes.map jsTrim with
  | some t =>
      if t = [] then
        slide.title ++ ". ".toList ++
          List.intercalate ". ".toList (slide.bulletPoints.getD [])
      else t
  | Option.none =>
      slide.title ++ ". ".toList ++
        List.intercalate ". ".toList (slide.bulletPoints.getD [])

/-- The skip condition of the batch loop: `!narrationText ||
narrationText.length < 5`. -/
def narrationSkipped (slide : Slide) : Prop :=
  narrationTextOf slide = [] ∨ (narrationTextOf slide).length < 5

instance (slide : Slide) : Decidable (narrationSkipped slide) :=
  inferInstanceAs
    (Decidable (narrationTextOf slide = [] ∨ (narrationTextOf slide).length < 5))

/-- `generateSlideNarration` with the speech API abstracted as `synth`:
reject effectively empty text, otherwise call the API and prefix any error
with `Narration generation failed: `. -/
def generateSlideNarration (synth : String → List Char → Except String TTSResult)
    (slideId : String) (text : List Char) : Except String TTSResult :=
  if jsTrim text = [] then
    Except.error "No text provided for narration"
  else
    match synth slideId text with
    | Except.ok r => Except.ok r
    | Except.error e => Except.error ("Narration generation failed: " ++ e)

/-- One iteration of the batch loop of `generatePresentationNarration`:
skip slides with insufficient text, append a success to `results`, append a
failure to `errors`. -/
def narrationStep (synth : String → List Char → Except String TTSResult)
    (acc : List SlideNarrationResult × List (String × String)) (slide : Slide) :
    List SlideNarrationResult × List (String × String) :=
  if narrationSkipped slide then acc
  else
    match generateSlideNarration synth slide.id (narrationTextOf slide) with
    | Except.ok r => (acc.1 ++ [⟨slide.id, r.audioPath, r.duration⟩], acc.2)
    | Except.error e => (acc.1, acc.2 ++ [(slide.id, e)])

/-- The accumulated (results, errors) of the batch loop. -/
def batchNarrationOutcome (synth : String → List Char → Except String TTSResult)
    (slides : List Slide) : List SlideNarrationResult × List (String × String) :=
  slides.foldl (narrationStep synth) ([], [])

/-- `TTSService.generatePresentationNarration`: reject an empty slide list,
run the batch loop, and raise only when no slide succeeded and at least one
failed; otherwise return the (possibly partial) successes. -/
def generatePresentationNarration (synth : String → List Char → Except String TTSResult)
    (slides : List Slide) : Except String (List SlideNarrationResult) :=
  if slides.length = 0 then
    Except.error "No slides provided for narration"
  else
    let outcome := batchNarrationOutcome synth slides
    if outcome.1 = [] ∧ outcome.2 ≠ [] then
      Except.error ("Failed to generate any narration. Errors: " ++
        String.intercalate ", " (outcome.2.map Prod.snd))
    else
      Except.ok outcome.1

lemma narrationStep_all_failed (synth : String → List Char → Except String TTSResult)
    (slides : List Slide)
    (hfail : ∀ slide ∈ slides, ¬ narrationSkipped slide ∧
      ∃ e, generateSlideNarration synth slide.id (narrationTextOf slide) = Except.error e)
    (acc : List SlideNarrationResult × List (String × String)) :
    (slides.foldl (narrationStep synth) acc).1 = acc.1 ∧
    (slides.foldl (narrationStep synth) acc).2.length = acc.2.length + slides.length := by
  induction slides generalizing acc with
  | nil => simp
  | cons slide rest ih =>
      obtain ⟨hskip, e, he⟩ := hfail slide (List.mem_cons_self slide rest)
      have hstep : narrationStep synth acc slide = (acc.1, acc.2 ++ [(slide.id, e)]) := by
        unfold narrationStep
        rw [if_neg hskip, he]
      have hrest := ih (fun s hs => hfail s (List.mem_cons_of_mem slide hs))
        (acc.1, acc.2 ++ [(slide.id, e)])
      rw [List.foldl_cons, hstep]
      refine ⟨hrest.1, ?_⟩
      rw [hrest.2]
      simp [List.length_append]
      omega

/-- **C5**: the batch narration collects per-slide failures without
aborting: when at least one slide succeeded it returns exactly the
successful clips without raising; it raises only when zero slides
succeeded; and when every slide is attempted and its synthesis fails (with
at least one slide present) it raises. -/
theorem generatePresentationNarration_correct
    (synth : String → List Char → Except String TTSResult) (slides : List Slide) :
    ((batchNarrationOutcome synth slides).1 ≠ [] →
      generatePresentationNarration synth slides =
        Except.ok (batchNarrationOutcome synth slides).1) ∧
    (∀ e, generatePresentationNarration synth slides = Except.error e →
      (batchNarrationOutcome synth slides).1 = []) ∧
    (slides ≠ [] →
      (∀ slide ∈ slides, ¬ narrationSkipped slide ∧
        ∃ e, generateSlideNarration synth slide.id (narrationTextOf slide) = Except.error e) →
      ∃ msg, generatePresentationNarration synth slides = Except.error msg) := by
  refine ⟨?_, ?_, ?_⟩
  · intro hne
    have hlen : slides.length ≠ 0 := by
      intro h0
      rw [List.length_eq_zero] at h0
      subst h0
      exact hne rfl
    unfold generatePresentationNarration
    rw [if_neg hlen, if_neg]
    intro hcontra
    exact hne hcontra.1
  · intro e he
    by_contra hne
    have hlen : slides.length ≠ 0 := by
      intro h0
      rw [List.length_eq_zero] at h0
      subst h0
      exact hne rfl
    unfold generatePresentationNarration at he
    rw [if_neg hlen, if_neg] at he
    · exact Except.noConfusion he
    · intro hcontra
      exact hne hcontra.1
  · intro hne hfail
    have h := narrationStep_all_failed synth slides hfail ([], [])
    have hres : (batchNarrationOutcome synth slides).1 = [] := h.1
    have herr : (batchNarrationOutcome synth slides).2.length = slides.length := by
      have := h.2
      simpa [batchNarrationOutcome] using this
    have herrne : (batchNarrationOutcome synth slides).2 ≠ [] := by
      intro h0
      rw [h0] at herr
      simp at herr
      exact hne (List.length_eq_zero.mp herr.symm)
    have hlen : slides.length ≠ 0 := by
      intro h0
      exact hne (List.length_eq_zero.mp h0)
    refine ⟨"Failed to generate any narration. Errors: " ++
      String.intercalate ", " ((batchNarrationOutcome synth slides).2.map Prod.snd), ?_⟩
    unfold generatePresentationNarration
    rw [if_neg hlen, if_pos ⟨hres, herrne⟩]

/-- A speech oracle failing exactly for slide `s3`. -/
def ttsSynthOneFail : String → List Char → Except String TTSResult :=
  fun slideId _ =>
    if slideId = "s3" then Except.error "rate limit"
    else Except.ok ⟨"path_" ++ slideId, 2⟩

/-- A speech oracle failing for every slide. -/
def ttsSynthAllFail : String → List Char → Except String TTSResult :=
  fun _ _ => Except.error "boom"

/-- Five slides with usable speaker notes. -/
def ttsSlides5 : List Slide :=
  ["s1", "s2", "s3", "s4", "s5"].map
    (fun i => ⟨i, "Slide".toList, Option.none, some ("Hello world".toList)⟩)

/-- Witness for C5: with one of five slides failing, the batch returns the
four successful clips without raising; with all five failing it raises. -/
theorem generatePresentationNarration_correct_witness :
    generatePresentationNarration ttsSynthOneFail ttsSlides5 =
      Except.ok ((batchNarrationOutcome ttsSynthOneFail ttsSlides5).1) ∧
    (batchNarrationOutcome ttsSynthOneFail ttsSlides5).1 =
      [⟨"s1", "path_s1", 2⟩, ⟨"s2", "path_s2", 2⟩, ⟨"s4", "path_s4", 2⟩, ⟨"s5", "path_s5", 2⟩] ∧
    (∃ msg, generatePresentationNarration ttsSynthAllFail ttsSlides5 = Except.error msg) := by
  refine ⟨(generatePresentationNarration_correct ttsSynthOneFail ttsSlides5).1 (by decide),
    by decide, ?_⟩
  refine (generatePresentationNarration_correct ttsSynthAllFail ttsSlides5).2.2 (by decide) ?_
  intro slide hmem
  fin_cases hmem <;> exact ⟨by decide, _, rfl⟩

/-! ### Image/narration pairing in the export orchestrator (`routes.ts`) -/

/-- A rendered slide image as consumed by the pairing loop
(`PresentationRenderResult`, restricted to the fields it reads). -/
structure RenderedSlideImage where
  slideId : String
  imagePath : String
deriving DecidableEq

/-- One narration clip as consumed by the pairing loop
(`SlideNarrationResult` of `tts.ts`, with `audioPath` and `duration`). -/
structure NarrationClip where
  slideId : String
  audioPath : String
  duration : ℚ
deriving DecidableEq

/-- `SlideVideoInput` of `videoAssembly.ts`. -/
structure SlideVideoInput where
  imagePath : String
  audioPath : String
  duration : ℚ
deriving DecidableEq

/-- The pairing loop of `processVideoExport` (`routes.ts` lines 899–912):
for each index below `min(images.length, narrations.length)` take the image
at that index and look up a narration with the same slideId anywhere in the
narration list; indices without a match contribute nothing. The matched
(image, narration) pairs are kept here so their slideIds can be stated. -/
def pairSlideVideoInputs (images : List RenderedSlideImage)
    (narrations : List NarrationClip) : List (RenderedSlideImage × NarrationClip) :=
  (List.range (min images.length narrations.length)).filterMap (fun i =>
    match images[i]? with
    | some image =>
        (narrations.find? (fun n => n.slideId == image.slideId)).map (fun n => (image, n))
    | Option.none => Option.none)

/-- The `slideVideoInputs` array built by the loop. -/
def slideVideoInputsOf (images : List RenderedSlideImage)
    (narrations : List NarrationClip) : List SlideVideoInput :=
  (pairSlideVideoInputs images narrations).map
    (fun p => ⟨p.1.imagePath, p.2.audioPath, p.2.duration⟩)

/-- The zero-pair check after the loop: an empty result throws. -/
def pairingStep (images : List RenderedSlideImage)
    (narrations : List NarrationClip) : Except String (List SlideVideoInput) :=
  if slideVideoInputsOf images narrations = [] then
    Except.error "Failed to match slide images with narration audio"
  else
    Except.ok (slideVideoInputsOf images narrations)

/-- The claim C4 is refuted by images for slides s1, s2 and narrations for
slides s2, s3: `min` of the input lengths is 2, but only the s2 pair
matches, so the output has length 1. -/
theorem pairSlideVideoInputs_counterexample :
    (slideVideoInputsOf [⟨"s1", "i1"⟩, ⟨"s2", "i2"⟩]
      [⟨"s2", "a2", 1⟩, ⟨"s3", "a3", 1⟩]).length = 1 ∧
    min ([⟨"s1", "i1"⟩, ⟨"s2", "i2"⟩] : List RenderedSlideImage).length
      ([⟨"s2", "a2", 1⟩, ⟨"s3", "a3", 1⟩] : List NarrationClip).length = 2 ∧
    (1 : ℕ) ≠ 2 := by
  refine ⟨?_, by decide, by decide⟩
  decide

/-- **C4 (amended)**: the paired list has length at most
`min(|images|, |narrations|)` (equality can fail when an image among the
first `min` has no narration with its slideId); every produced pair joins
an image and a narration that share a slideId, each drawn from its input
list; and a zero-pair result makes the job fail with the pairing error. -/
theorem pairSlideVideoInputs_correct (images : List RenderedSlideImage)
    (narrations : List NarrationClip) :
    (slideVideoInputsOf images narrations).length ≤
      min images.length narrations.length ∧
    (∀ p ∈ pairSlideVideoInputs images narrations,
      p.1 ∈ images ∧ p.2 ∈ narrations ∧ p.1.slideId = p.2.slideId) ∧
    (slideVideoInputsOf images narrations = [] →
      pairingStep images narrations =
        Except.error "Failed to match slide images with narration audio") := by
  refine ⟨?_, ?_, ?_⟩
  · calc (slideVideoInputsOf images narrations).length
        = (pairSlideVideoInputs images narrations).length := List.length_map _ _
      _ ≤ (List.range (min images.length narrations.length)).length :=
          List.length_filterMap_le _ _
      _ = min images.length narrations.length := List.length_range _
  · intro p hp
    unfold pairSlideVideoInputs at hp
    obtain ⟨i, hi, hmatch⟩ := List.mem_filterMap.mp hp
    cases himg : images[i]? with
    | none => rw [himg] at hmatch; exact absurd hmatch (by simp)
    | some image =>
        rw [himg] at hmatch
        obtain ⟨n, hfind, heq⟩ := Option.map_eq_some'.mp hmatch
        have hmemn : n ∈ narrations := List.mem_of_find?_eq_some hfind
        have hpred : (n.slideId == image.slideId) = true := by
          simpa using List.find?_some hfind
        have hmemi : image ∈ images := List.getElem?_mem himg
        rw [← heq]
        exact ⟨hmemi, hmemn, (beq_iff_eq.mp hpred).symm⟩
  · intro hempty
    unfold pairingStep
    rw [if_pos hempty]

/-- Witness for C4 (amended): an image for s1 and a narration for s2 share
no slideId: zero pairs, and the pairing step fails with the pairing
error. -/
theorem pairSlideVideoInputs_correct_witness :
    pairingStep [⟨"s1", "i1"⟩] [⟨"s2", "a2", 1⟩] =
      Except.error "Failed to match slide images with narration audio" :=
  (pairSlideVideoInputs_correct [⟨"s1", "i1"⟩] [⟨"s2", "a2", 1⟩]).2.2 (by decide)

end EchoDeck
